import Mathlib

/-!
Shallow embedding of the NotesApp backend (Express + Mongoose corpus of five
near-duplicate server iterations) and proofs about its note and auth
operations.  Object ids and timestamps are modelled as `Nat`; Mongo documents
become Lean structures; each route handler becomes a pure function from the
relevant collection state and request data to the new state and the response
outcome.  Schema-level string trimming is not modelled: no property below
depends on it.
-/

namespace NotesApp

/-- A note document, following the Mongoose `NoteSchema` of `models/Note.js`:
title, content, color, category, the three flags, the owning user id, and the
`timestamps` creation time. -/
structure Note where
  id : Nat
  user : Nat
  title : String
  content : String
  color : String
  category : String
  isPinned : Bool
  isFavorite : Bool
  isArchived : Bool
  createdAt : Nat
  deriving Repr, DecidableEq

/-- Outcome of a delete-style handler: the JWT-variant handler answers
success or not-found; the `/notes/:userId/:noteId` session-variant handler
answers success or forbidden (it never answers not-found). -/
inductive DeleteOutcome where
  | success
  | notFound
  | forbidden
  deriving Repr, DecidableEq

/-- The Mongo filter `{ _id: noteId, user: userId }` used by the scoped
handlers of the JWT variant. -/
def noteMatch (uid nid : Nat) (n : Note) : Bool :=
  n.id == nid && n.user == uid

/-- Replace the first element satisfying `p` by the result of `f` on it,
modelling a Mongo single-document update. -/
def updateFirst (p : Note → Bool) (f : Note → Note) : List Note → List Note
  | [] => []
  | m :: ms => if p m then f m :: ms else m :: updateFirst p f ms

/-- The body of `PUT /notes/:noteId`: each of the seven updatable fields is
either absent (`undefined` in the handler) or supplies a value. -/
structure UpdateInput where
  title : Option String
  content : Option String
  color : Option String
  category : Option String
  isPinned : Option Bool
  isFavorite : Option Bool
  isArchived : Option Bool
  deriving Repr, DecidableEq

/-- The `updateData` object built by `PUT /notes/:noteId` applied to a note:
every field present in the body overwrites the stored field; a body with
`isArchived: true` additionally forces `isPinned` to `false`, overriding a
supplied `isPinned` (the handler assigns `updateData.isPinned` from the body
first and the archive branch overwrites it afterwards). -/
def applyUpdate (n : Note) (u : UpdateInput) : Note :=
  { n with
    title := u.title.getD n.title
    content := u.content.getD n.content
    color := u.color.getD n.color
    category := u.category.getD n.category
    isPinned := if u.isArchived = some true then false else u.isPinned.getD n.isPinned
    isFavorite := u.isFavorite.getD n.isFavorite
    isArchived := u.isArchived.getD n.isArchived }

/-- Handler `PUT /notes/:noteId` (JWT variant): `findOneAndUpdate` on the
filter `{ _id: noteId, user: userId }` with `new: true`; `none` models the
404 "Note not found" response. -/
def updateNote (db : List Note) (uid nid : Nat) (u : UpdateInput) :
    List Note × Option Note :=
  match db.find? (noteMatch uid nid) with
  | none => (db, none)
  | some n => (updateFirst (noteMatch uid nid) (fun m => applyUpdate m u) db,
               some (applyUpdate n u))

/-- Handler `DELETE /notes/:noteId` (JWT variant): `deleteOne` on
`{ _id: noteId, user: userId }`, answering 404 when `deletedCount` is 0. -/
def deleteNote (db : List Note) (uid nid : Nat) : List Note × DeleteOutcome :=
  if db.any (noteMatch uid nid) then (db.eraseP (noteMatch uid nid), .success)
  else (db, .notFound)

/-- Handler `PATCH /notes/:noteId/pin`: find the owned note, flip `isPinned`
unconditionally, save.  Nothing inspects `isArchived`. -/
def togglePin (db : List Note) (uid nid : Nat) : List Note × Option Note :=
  match db.find? (noteMatch uid nid) with
  | none => (db, none)
  | some n =>
    let n2 := { n with isPinned := !n.isPinned }
    (updateFirst (noteMatch uid nid) (fun _ => n2) db, some n2)

/-- Handler `PATCH /notes/:noteId/archive`: find the owned note, set
`isArchived` from the body (`archive`, default `true`), and when archiving
also clear `isPinned`, then save. -/
def archiveNote (db : List Note) (uid nid : Nat) (archive : Bool) :
    List Note × Option Note :=
  match db.find? (noteMatch uid nid) with
  | none => (db, none)
  | some n =>
    let n2 := { n with isArchived := archive,
                       isPinned := if archive then false else n.isPinned }
    (updateFirst (noteMatch uid nid) (fun _ => n2) db, some n2)

/-- Body of `POST /notes`: title plus optional content, color, category. -/
structure CreateInput where
  title : String
  content : Option String
  color : Option String
  category : Option String
  deriving Repr, DecidableEq

/-- Handler `POST /notes` (JWT variant): `Note.create` with the handler's
defaults (content "", color "#ffffff", category "General") and the schema
defaults for the three flags; `newId` and `now` stand for the generated
ObjectId and the `timestamps` clock. -/
def createNote (db : List Note) (uid : Nat) (c : CreateInput) (newId now : Nat) :
    List Note × Note :=
  let n : Note :=
    { id := newId, user := uid, title := c.title,
      content := c.content.getD "", color := c.color.getD "#ffffff",
      category := c.category.getD "General",
      isPinned := false, isFavorite := false, isArchived := false,
      createdAt := now }
  (db ++ [n], n)

/-- Handler `DELETE /notes/:userId/:noteId` (session variant of server.js):
forbidden when the path user id differs from the session user id, otherwise
`Note.deleteOne({ _id: noteId })` — no ownership condition in the filter —
followed by an unconditional success response. -/
def sessionDeleteNote (sessionUid pathUid nid : Nat) (db : List Note) :
    List Note × DeleteOutcome :=
  if sessionUid != pathUid then (db, .forbidden)
  else (db.eraseP (fun n => n.id == nid), .success)

end NotesApp

namespace NotesApp

/-- Whether the first character list starts the second. -/
def startsWith : List Char → List Char → Bool
  | [], _ => true
  | _ :: _, [] => false
  | a :: as, b :: bs => a == b && startsWith as bs

/-- Whether the first character list occurs contiguously in the second. -/
def hasSubstr (needle : List Char) : List Char → Bool
  | [] => needle.isEmpty
  | b :: bs => startsWith needle (b :: bs) || hasSubstr needle bs

/-- Character-level lowercasing (kernel-computable). -/
def lowerChars (l : List Char) : List Char := l.map Char.toLower

/-- Case-insensitive substring test modelling the Mongo filter
`{ $regex: search, $options: i }` on a metacharacter-free search string. -/
def containsCI (hay needle : String) : Bool :=
  hasSubstr (lowerChars needle.data) (lowerChars hay.data)

/-- The Mongo query built by `GET /notes`: owner and archived-flag equality
always; the `$or` title/content regex only when `search` is truthy; the
category equality only when `category` is truthy (a supplied empty string is
falsy in the handler and adds no condition). -/
def matchesQuery (uid : Nat) (search category : Option String) (arch : Bool)
    (n : Note) : Bool :=
  n.user == uid && n.isArchived == arch &&
    (match search with
     | none => true
     | some s => if s.isEmpty then true
                 else containsCI n.title s || containsCI n.content s) &&
    (match category with
     | none => true
     | some c => if c.isEmpty then true else n.category == c)

/-- Sort rank for the leading `isPinned: -1` key: pinned notes first. -/
def pinRank (n : Note) : Nat := if n.isPinned then 0 else 1

/-- The order of `.sort({ isPinned: -1, createdAt: -1 })`: pinned before
unpinned, ties broken by creation time descending. -/
def noteLe (a b : Note) : Prop :=
  pinRank a < pinRank b ∨ (pinRank a = pinRank b ∧ b.createdAt ≤ a.createdAt)

instance : DecidableRel noteLe := fun a b => by
  unfold noteLe; exact inferInstance

instance : IsTotal Note noteLe where
  total a b := by
    rcases Nat.lt_trichotomy (pinRank a) (pinRank b) with h | h | h
    · exact Or.inl (Or.inl h)
    · rcases Nat.le_total b.createdAt a.createdAt with hc | hc
      · exact Or.inl (Or.inr ⟨h, hc⟩)
      · exact Or.inr (Or.inr ⟨h.symm, hc⟩)
    · exact Or.inr (Or.inl h)

instance : IsTrans Note noteLe where
  trans a b c hab hbc := by
    rcases hab with h1 | ⟨h1, h1c⟩
    · rcases hbc with h2 | ⟨h2, _⟩
      · exact Or.inl (h1.trans h2)
      · exact Or.inl (h2 ▸ h1)
    · rcases hbc with h2 | ⟨h2, h2c⟩
      · exact Or.inl (h1 ▸ h2)
      · exact Or.inr ⟨h1.trans h2, h2c.trans h1c⟩

/-- The effective archived filter of `GET /notes`: the query parameter
defaults to the string "false" and only the exact string "true" selects
archived notes. -/
def archParam (p : Option String) : Bool :=
  (p.getD "false") == "true"

/-- Handler `GET /notes` (JWT variant and the matching session variants):
filter by owner, archived flag, optional search and category, then
`.sort({ isPinned: -1, createdAt: -1 })`. -/
def listNotes (db : List Note) (uid : Nat) (search category isArch : Option String) :
    List Note :=
  List.insertionSort noteLe (db.filter (matchesQuery uid search category (archParam isArch)))

/-- The order of the `.sort({ createdAt: -1 })` variant. -/
def createdLe (a b : Note) : Prop := b.createdAt ≤ a.createdAt

instance : DecidableRel createdLe := fun a b => by
  unfold createdLe; exact inferInstance

instance : IsTotal Note createdLe where
  total a b := (Nat.le_total b.createdAt a.createdAt).imp id id

instance : IsTrans Note createdLe where
  trans _ _ _ hab hbc := Nat.le_trans hbc hab

/-- Handler `GET /notes` of the trailing session variant of part_001:
`Note.find({ user }).sort({ createdAt: -1 })` — no archived filter and no
pinned sort key. -/
def listNotesByCreated (db : List Note) (uid : Nat) : List Note :=
  List.insertionSort createdLe (db.filter (fun n => n.user == uid))

/-- A user document per the `UserSchema` of `models/User.js`: name, the
unique email stored exactly as supplied (that schema has neither `lowercase`
nor `trim` on `email`), and the bcrypt password hash. -/
structure UserRec where
  id : Nat
  name : String
  email : String
  password : String
  deriving Repr, DecidableEq

/-- Outcome of a login handler: the user id on success, otherwise an HTTP
status together with the response message. -/
inductive AuthResult where
  | success (userId : Nat)
  | failure (status : Nat) (message : String)
  deriving Repr, DecidableEq

/-- The lookup `User.findOne({ email })`: exact string match on the stored
email. -/
def findUser (users : List UserRec) (email : String) : Option UserRec :=
  users.find? (fun u => u.email == email)

/-- Handler `POST /auth/login` of the main (JWT) variant; `verify` stands for
`bcrypt.compare(password, user.password)`.  Unknown email and password
mismatch both answer 401 "Invalid email or password". -/
def login (verify : String → String → Bool) (users : List UserRec)
    (email password : String) : AuthResult :=
  match findUser users email with
  | none => .failure 401 "Invalid email or password"
  | some u =>
    if verify password u.password then .success u.id
    else .failure 401 "Invalid email or password"

/-- Handler `POST /auth/login` of part_000: unknown email answers 409
"User doesn\x27t exist" while a password mismatch answers 401
"Invalid email or password". -/
def part000Login (verify : String → String → Bool) (users : List UserRec)
    (email password : String) : AuthResult :=
  match findUser users email with
  | none => .failure 409 "User doesn\x27t exist"
  | some u =>
    if verify password u.password then .success u.id
    else .failure 401 "Invalid email or password"

/-- Outcome of the signup handler. -/
inductive SignupResult where
  | created (userId : Nat)
  | alreadyExists
  deriving Repr, DecidableEq

/-- Handler `POST /auth/signup` of the main variant over the
`models/User.js` schema: `User.findOne({ email })` with the raw request
email, rejecting with 400 "User already exists" on a hit, else
`User.create` with the email stored exactly as supplied; `hashFn` stands for
`bcrypt.hash`. -/
def signup (hashFn : String → String) (users : List UserRec)
    (nm email password : String) (newId : Nat) : List UserRec × SignupResult :=
  match findUser users email with
  | some _ => (users, .alreadyExists)
  | none =>
    (users ++ [{ id := newId, name := nm, email := email,
                 password := hashFn password }], .created newId)

/-- Character-level whitespace trimming (kernel-computable). -/
def trimChars (l : List Char) : List Char :=
  ((l.dropWhile Char.isWhitespace).reverse.dropWhile Char.isWhitespace).reverse

/-- Email normalization as the spec defines it: trim then lowercase. -/
def normalizeEmail (e : String) : String := ⟨lowerChars (trimChars e.data)⟩

/-- A JWT issued by `generateToken`: payload user id, issue time and the
`expiresIn: 7d` expiry, in seconds. -/
structure JwtToken where
  userId : Nat
  iat : Nat
  exp : Nat
  deriving Repr, DecidableEq

/-- The `jwt.sign({ userId }, secret, { expiresIn: 7d })` call: the expiry
is the issue time plus seven days. -/
def generateToken (uid now : Nat) : JwtToken :=
  { userId := uid, iat := now, exp := now + 7 * 24 * 60 * 60 }

/-- The `jwt.verify` call inside `requireAuth`: a well-signed token resolves
to its payload user id exactly when the clock has not reached `exp`
(`jsonwebtoken` rejects once `now >= exp`).  No server-side store
participates: verification reads only the token and the clock. -/
def jwtVerify (t : JwtToken) (now : Nat) : Option Nat :=
  if now < t.exp then some t.userId else none

/-- The `POST /auth/logout` handler of the JWT variant: it only sends a
response ("frontend handles this by removing token") and changes no
server-side state, modelled as the identity on any token bookkeeping. -/
def jwtLogout (issued : List JwtToken) : List JwtToken := issued

/-- A server-side session of the express-session variants: session id,
bound user id, and the seven-day expiry of the cookie and store TTL. -/
structure Session where
  sid : Nat
  userId : Nat
  expiresAt : Nat
  deriving Repr, DecidableEq

/-- Session validation of the session variants: the store resolves the
session id and an expired or absent session is invalid. -/
def sessionValidate (store : List Session) (sid now : Nat) : Option Nat :=
  match store.find? (fun s => s.sid == sid) with
  | none => none
  | some s => if now < s.expiresAt then some s.userId else none

/-- The `POST /auth/logout` handler of the session variants:
`req.session.destroy` removes the session from the store. -/
def sessionDestroy (store : List Session) (sid : Nat) : List Session :=
  store.filter (fun s => s.sid != sid)

/-- Field merge of the `PUT /notes/:userId/:noteId` handler of part_000:
`note.title = title || note.title` and likewise for content and color, so an
absent field and a supplied falsy value (the empty string) both keep the
stored value. -/
def orKeep (v : Option String) (old : String) : String :=
  match v with
  | none => old
  | some s => if s.isEmpty then old else s

/-- The note resulting from the part_000 update handler (its embedded
`NoteSchema` carries title, content and color; all other fields are
untouched). -/
def part000ApplyUpdate (n : Note) (t c col : Option String) : Note :=
  { n with title := orKeep t n.title, content := orKeep c n.content,
           color := orKeep col n.color }

/-- C1 counterexample.  The claim says a note operation under user B on a
note owned by user A answers NotFound.  In the `DELETE /notes/:userId/:noteId`
handler of the session variant of server.js, user 2 passing their own id in
the path and the id of user 1's note deletes that note and receives the
success response, not NotFound. -/
theorem sessionDelete_crossOwner_success :
    sessionDeleteNote 2 2 10
        [⟨10, 1, "T", "", "#ffffff", "General", false, false, false, 0⟩]
      = ([], .success) ∧ DeleteOutcome.success ≠ DeleteOutcome.notFound :=
  ⟨by decide, by decide⟩

/-- C2 counterexample.  The claim says validate(T) fails at every time after
revoke(T).  In the JWT variant, the logout handler changes no server state,
and a token issued at time 0 still validates at time 1, after logout. -/
theorem jwtLogout_no_revocation :
    jwtLogout [generateToken 7 0] = [generateToken 7 0] ∧
    jwtVerify (generateToken 7 0) 1 = some 7 :=
  ⟨rfl, by decide⟩

/-- C9 counterexample.  The claim says deleting an id that never existed
answers NotFound.  The `DELETE /notes/:userId/:noteId` handler of the session
variant of server.js answers success unconditionally, even on an empty
collection. -/
theorem sessionDelete_nonexistent_success :
    sessionDeleteNote 1 1 99 [] = ([], .success) ∧
    DeleteOutcome.success ≠ DeleteOutcome.notFound :=
  ⟨by decide, by decide⟩

/-- C6 (code bug).  The claim, following the spec's stated resolution, says
pin-toggle on an archived note is a no-op returning the unchanged note.  The
`PATCH /notes/:noteId/pin` handler flips `isPinned` unconditionally: on an
archived unpinned note it stores and returns a note that is both archived
and pinned, contradicting the handlers' own "Can\x27t pin archived notes"
comment. -/
theorem togglePin_archived_flips :
    togglePin [⟨10, 1, "T", "", "#ffffff", "General", false, false, true, 0⟩] 1 10
      = ([⟨10, 1, "T", "", "#ffffff", "General", true, false, true, 0⟩],
         some ⟨10, 1, "T", "", "#ffffff", "General", true, false, true, 0⟩) ∧
    (⟨10, 1, "T", "", "#ffffff", "General", true, false, true, 0⟩ : Note)
      ≠ ⟨10, 1, "T", "", "#ffffff", "General", false, false, true, 0⟩ :=
  ⟨by decide, by decide⟩

/-- C5 (code bug).  The claim says no reachable note state is both archived
and pinned.  Reachable violation in the JWT variant: create a note, archive
it, then send `PUT /notes/:noteId` with body `{ isPinned: true }` — the
update handler only clears `isPinned` when the body carries `isArchived`, so
the stored note ends up archived and pinned. -/
theorem archived_note_pinned_reachable :
    ((updateNote
        (archiveNote (createNote [] 1 ⟨"T", none, none, none⟩ 10 0).1 1 10 true).1
        1 10 ⟨none, none, none, none, some true, none, none⟩).2.map
      (fun n => (n.isArchived, n.isPinned))) = some (true, true) := by
  decide

/-- C7 counterexample.  The claim says an explicitly supplied empty string is
written to the field.  The `PUT /notes/:userId/:noteId` handler of part_000
merges with `note.title = title || note.title`, so a supplied empty title is
falsy and the stored title is kept. -/
theorem orMerge_empty_string_ignored :
    (part000ApplyUpdate ⟨10, 1, "Old", "c", "#ffffff", "General", false, false, false, 0⟩
        (some "") none none).title = "Old" ∧ ("Old" : String) ≠ "" :=
  ⟨by decide, by decide⟩

/-- C3 (code bug).  The part_000 login handler answers 409 "User doesn\x27t
exist" for an unregistered email but 401 "Invalid email or password" for a
wrong password — two distinguishable failures — while the main variant
answers identically in both cases at the same inputs. -/
theorem login_enumeration_divergence :
    part000Login (fun p h => ("H" ++ p) == h) [⟨1, "A", "a@x.com", "Hp1"⟩] "b@x.com" "p1"
        = .failure 409 "User doesn\x27t exist" ∧
    part000Login (fun p h => ("H" ++ p) == h) [⟨1, "A", "a@x.com", "Hp1"⟩] "a@x.com" "zz"
        = .failure 401 "Invalid email or password" ∧
    AuthResult.failure 409 "User doesn\x27t exist" ≠
      AuthResult.failure 401 "Invalid email or password" ∧
    login (fun p h => ("H" ++ p) == h) [⟨1, "A", "a@x.com", "Hp1"⟩] "b@x.com" "p1"
      = login (fun p h => ("H" ++ p) == h) [⟨1, "A", "a@x.com", "Hp1"⟩] "a@x.com" "zz" := by
  refine ⟨by decide, by decide, by decide, by decide⟩

/-- C4 counterexample.  The claim says a second registration with any
casing variant of an existing email fails with AlreadyExists and one record
remains.  Under the `models/User.js` schema (no lowercase or trim), signing
up "a@x.com" and then "A@x.com" succeeds twice and leaves two records whose
normalized emails coincide. -/
theorem signup_casing_duplicate :
    (signup (fun p => "H" ++ p)
        (signup (fun p => "H" ++ p) [] "A" "a@x.com" "p1" 1).1
        "B" "A@x.com" "p2" 2).2 = .created 2 ∧
    ((signup (fun p => "H" ++ p)
        (signup (fun p => "H" ++ p) [] "A" "a@x.com" "p1" 1).1
        "B" "A@x.com" "p2" 2).1.countP
      (fun u => normalizeEmail u.email == normalizeEmail "a@x.com")) = 2 := by
  refine ⟨by decide, by decide⟩

/-- Unfolding of the ownership filter `{ _id: noteId, user: userId }`. -/
theorem noteMatch_iff {uid nid : Nat} {n : Note} :
    noteMatch uid nid n = true ↔ n.id = nid ∧ n.user = uid := by
  simp [noteMatch]

/-- C1 (amended).  For the ownership-scoped handlers (the JWT variant's
update, delete, pin and archive, and part_001's get), an id carried by no
note of the caller — be the note owned by someone else or nonexistent —
yields the very same NotFound outcome with the store unchanged, so the two
causes are indistinguishable.  A single hypothesis covers both causes, hence
the identical outcome. -/
theorem crossOwner_notFound (db : List Note) (uid nid : Nat) (arch : Bool)
    (u : UpdateInput) (h : ∀ n ∈ db, ¬(n.id = nid ∧ n.user = uid)) :
    db.find? (noteMatch uid nid) = none ∧
    updateNote db uid nid u = (db, none) ∧
    deleteNote db uid nid = (db, .notFound) ∧
    togglePin db uid nid = (db, none) ∧
    archiveNote db uid nid arch = (db, none) := by
  have hf : db.find? (noteMatch uid nid) = none := by
    rw [List.find?_eq_none]
    intro n hn
    simpa [noteMatch_iff] using h n hn
  have ha : db.any (noteMatch uid nid) = false := by
    rw [List.any_eq_false]
    intro n hn
    simpa [noteMatch_iff] using h n hn
  refine ⟨hf, ?_, ?_, ?_, ?_⟩
  · unfold updateNote; rw [hf]
  · unfold deleteNote; rw [ha]; simp
  · unfold togglePin; rw [hf]
  · unfold archiveNote; rw [hf]

/-- Witness for C1: user 2 deleting user 1's note 10 receives NotFound and
the store is untouched. -/
theorem crossOwner_notFound_witness :
    deleteNote [⟨10, 1, "T", "", "#ffffff", "General", false, false, false, 0⟩] 2 10
      = ([⟨10, 1, "T", "", "#ffffff", "General", false, false, false, 0⟩], .notFound) :=
  (crossOwner_notFound
      [⟨10, 1, "T", "", "#ffffff", "General", false, false, false, 0⟩]
      2 10 true ⟨none, none, none, none, none, none, none⟩ (by decide)).2.2.1

/-- C2 (amended).  A JWT validates exactly while the clock is strictly
before its seven-day expiry; a stored session validates while present and
unexpired, fails once every session under its id has expired, and fails at
every time after the session-variant logout destroys it.  (The JWT-variant
logout revokes nothing; see the counterexample.) -/
theorem token_lifecycle :
    (∀ uid iat now : Nat, now < iat + 7 * 24 * 60 * 60 →
        jwtVerify (generateToken uid iat) now = some uid) ∧
    (∀ uid iat now : Nat, iat + 7 * 24 * 60 * 60 ≤ now →
        jwtVerify (generateToken uid iat) now = none) ∧
    (∀ (store : List Session) (s : Session) (now : Nat),
        store.find? (fun x => x.sid == s.sid) = some s → now < s.expiresAt →
        sessionValidate store s.sid now = some s.userId) ∧
    (∀ (store : List Session) (sid now : Nat),
        (∀ s ∈ store, s.sid = sid → s.expiresAt ≤ now) →
        sessionValidate store sid now = none) ∧
    (∀ (store : List Session) (sid now : Nat),
        sessionValidate (sessionDestroy store sid) sid now = none) := by
  refine ⟨?_, ?_, ?_, ?_, ?_⟩
  · intro uid iat now h
    simp [jwtVerify, generateToken, h]
  · intro uid iat now h
    simp [jwtVerify, generateToken, Nat.not_lt.mpr h]
  · intro store s now hfind hlt
    simp [sessionValidate, hfind, hlt]
  · intro store sid now hall
    cases hf : store.find? (fun x => x.sid == sid) with
    | none => simp [sessionValidate, hf]
    | some s =>
      have hm := List.mem_of_find?_eq_some hf
      have hp := List.find?_some hf
      have hle : s.expiresAt ≤ now := hall s hm (by simpa using hp)
      simp [sessionValidate, hf, Nat.not_lt.mpr hle]
  · intro store sid now
    have hnone : (sessionDestroy store sid).find? (fun x => x.sid == sid) = none := by
      rw [List.find?_eq_none]
      intro x hx
      simp only [sessionDestroy] at hx
      have h2 := (List.mem_filter.mp hx).2
      simp only [bne_iff_ne] at h2
      simp [h2]
    simp [sessionValidate, hnone]

/-- Witness for C2 at concrete tokens and sessions. -/
theorem token_lifecycle_witness :
    jwtVerify (generateToken 5 0) 10 = some 5 ∧
    jwtVerify (generateToken 5 0) 604800 = none ∧
    sessionValidate [⟨1, 5, 100⟩] 1 50 = some 5 ∧
    sessionValidate [⟨1, 5, 100⟩] 1 100 = none ∧
    sessionValidate (sessionDestroy [⟨1, 5, 100⟩] 1) 1 50 = none :=
  ⟨token_lifecycle.1 5 0 10 (by decide),
   token_lifecycle.2.1 5 0 604800 (by decide),
   token_lifecycle.2.2.1 [⟨1, 5, 100⟩] ⟨1, 5, 100⟩ 50 (by decide) (by decide),
   token_lifecycle.2.2.2.1 [⟨1, 5, 100⟩] 1 100 (by decide),
   token_lifecycle.2.2.2.2 [⟨1, 5, 100⟩] 1 50⟩

/-- C4 (amended).  A second registration with the exact same email string is
rejected with AlreadyExists, the store is unchanged, and the single record
under that string stays single; deduplication of mere casing or whitespace
variants does not happen under the `models/User.js` schema (see the
counterexample). -/
theorem signup_exact_duplicate_rejected (hashFn : String → String)
    (users : List UserRec) (nm e pw : String) (newId : Nat)
    (h : ∃ u ∈ users, u.email = e)
    (hcount : users.countP (fun u => u.email == e) = 1) :
    (signup hashFn users nm e pw newId).2 = .alreadyExists ∧
    (signup hashFn users nm e pw newId).1 = users ∧
    (signup hashFn users nm e pw newId).1.countP (fun u => u.email == e) = 1 := by
  have hsome : (findUser users e).isSome := by
    rw [findUser, List.find?_isSome]
    obtain ⟨u, hu, he⟩ := h
    exact ⟨u, hu, by simp [he]⟩
  cases hf : findUser users e with
  | none => rw [hf] at hsome; simp at hsome
  | some u => refine ⟨?_, ?_, ?_⟩ <;> simp [signup, hf, hcount]

/-- Witness for C4: re-registering "a@x.com" exactly is rejected. -/
theorem signup_exact_duplicate_rejected_witness :
    (signup (fun p => "H" ++ p) [⟨1, "A", "a@x.com", "Hp"⟩] "B" "a@x.com" "q" 2).2
      = .alreadyExists :=
  (signup_exact_duplicate_rejected (fun p => "H" ++ p)
      [⟨1, "A", "a@x.com", "Hp"⟩] "B" "a@x.com" "q" 2 (by decide) (by decide)).1

/-- C7 (amended).  For the `updateData` variant of update: every field
present in the body is written with the supplied value (an explicitly
supplied empty string included), every absent field — and always the id,
owner and creation time — keeps its prior value, with the one documented
exception that a body carrying `isArchived: true` also forces `isPinned` to
`false`; and the handler returns exactly this merged note for the stored
note it finds.  (The part_000 variant instead drops falsy supplied values;
see the counterexample.) -/
theorem applyUpdate_frame (n : Note) (u : UpdateInput) :
    (∀ t, u.title = some t → (applyUpdate n u).title = t) ∧
    (∀ s, u.content = some s → (applyUpdate n u).content = s) ∧
    (applyUpdate n u).user = n.user ∧
    (applyUpdate n u).id = n.id ∧
    (applyUpdate n u).createdAt = n.createdAt ∧
    (u.title = none → (applyUpdate n u).title = n.title) ∧
    (u.content = none → (applyUpdate n u).content = n.content) ∧
    (∀ s, u.color = some s → (applyUpdate n u).color = s) ∧
    (u.color = none → (applyUpdate n u).color = n.color) ∧
    (∀ s, u.category = some s → (applyUpdate n u).category = s) ∧
    (u.category = none → (applyUpdate n u).category = n.category) ∧
    (∀ b, u.isFavorite = some b → (applyUpdate n u).isFavorite = b) ∧
    (u.isFavorite = none → (applyUpdate n u).isFavorite = n.isFavorite) ∧
    (∀ b, u.isArchived = some b → (applyUpdate n u).isArchived = b) ∧
    (u.isArchived = none → (applyUpdate n u).isArchived = n.isArchived) ∧
    (u.isArchived = some true → (applyUpdate n u).isPinned = false) ∧
    (u.isArchived ≠ some true → ∀ b, u.isPinned = some b →
        (applyUpdate n u).isPinned = b) ∧
    (u.isArchived ≠ some true → u.isPinned = none →
        (applyUpdate n u).isPinned = n.isPinned) ∧
    (∀ (db : List Note) (uid nid : Nat), db.find? (noteMatch uid nid) = some n →
        (updateNote db uid nid u).2 = some (applyUpdate n u)) := by
  refine ⟨?_, ?_, rfl, rfl, rfl, ?_, ?_, ?_, ?_, ?_, ?_, ?_, ?_, ?_, ?_, ?_, ?_, ?_, ?_⟩
  · intro t ht; simp [applyUpdate, ht]
  · intro s hs; simp [applyUpdate, hs]
  · intro ht; simp [applyUpdate, ht]
  · intro hs; simp [applyUpdate, hs]
  · intro s hs; simp [applyUpdate, hs]
  · intro hs; simp [applyUpdate, hs]
  · intro s hs; simp [applyUpdate, hs]
  · intro hs; simp [applyUpdate, hs]
  · intro b hb; simp [applyUpdate, hb]
  · intro hb; simp [applyUpdate, hb]
  · intro b hb; simp [applyUpdate, hb]
  · intro hb; simp [applyUpdate, hb]
  · intro hA; simp [applyUpdate, hA]
  · intro hA b hb; simp [applyUpdate, hA, hb]
  · intro hA hb; simp [applyUpdate, hA, hb]
  · intro db uid nid hfind; simp [updateNote, hfind]

/-- Witness for C7: a body with title "New" and `isArchived: true` (and even
`isPinned: true`) yields the new title and an unpinned note. -/
theorem applyUpdate_frame_witness :
    (applyUpdate ⟨10, 1, "Old", "c", "#ffffff", "General", false, false, false, 3⟩
        ⟨some "New", some "", none, none, some true, none, some true⟩).title = "New" ∧
    (applyUpdate ⟨10, 1, "Old", "c", "#ffffff", "General", false, false, false, 3⟩
        ⟨some "New", some "", none, none, some true, none, some true⟩).isPinned = false :=
  ⟨(applyUpdate_frame _ _).1 "New" rfl,
   (applyUpdate_frame _ _).2.2.2.2.2.2.2.2.2.2.2.2.2.2.2.1 rfl⟩

/-- C8 counterexample.  The claim says every listing puts pinned notes before
unpinned ones.  The `GET /notes` handler of the trailing part_001 variant
sorts by `createdAt` only: an unpinned newer note precedes a pinned older
one. -/
theorem createdAt_only_sort_not_pinned_first :
    listNotesByCreated
        [⟨1, 1, "A", "", "#ffffff", "General", true, false, false, 0⟩,
         ⟨2, 1, "B", "", "#ffffff", "General", false, false, false, 5⟩] 1
      = [⟨2, 1, "B", "", "#ffffff", "General", false, false, false, 5⟩,
         ⟨1, 1, "A", "", "#ffffff", "General", true, false, false, 0⟩] ∧
    (⟨2, 1, "B", "", "#ffffff", "General", false, false, false, 5⟩ : Note).isPinned = false ∧
    (⟨1, 1, "A", "", "#ffffff", "General", true, false, false, 0⟩ : Note).isPinned = true := by
  refine ⟨by decide, rfl, rfl⟩

/-- C8 (amended).  For the `GET /notes` handlers sorting by
`{ isPinned: -1, createdAt: -1 }` — every owner, every filter — the returned
sequence has every pinned note before every unpinned one and is ordered by
creation time descending within each group.  (The createdAt-only variant
does not; see the counterexample.) -/
theorem listNotes_sorted_pinned_first (db : List Note) (uid : Nat)
    (search category isArch : Option String) :
    (listNotes db uid search category isArch).Pairwise
      (fun a b => (b.isPinned = true → a.isPinned = true) ∧
                  (a.isPinned = b.isPinned → b.createdAt ≤ a.createdAt)) := by
  unfold listNotes
  have hs : List.Sorted noteLe
      (List.insertionSort noteLe
        (db.filter (matchesQuery uid search category (archParam isArch)))) :=
    List.sorted_insertionSort noteLe _
  refine List.Pairwise.imp ?_ hs
  intro a b hab
  cases hpa : a.isPinned <;> cases hpb : b.isPinned <;>
    simp_all [noteLe, pinRank]

/-- After erasing the one matching element of a list holding at most one
match, no match remains. -/
theorem eraseP_no_match (p : Note → Bool) :
    ∀ l : List Note, l.countP p ≤ 1 → (l.eraseP p).any p = false := by
  intro l
  induction l with
  | nil => intro _; rfl
  | cons a l ih =>
    intro h
    by_cases hpa : p a = true
    · rw [List.eraseP_cons_of_pos hpa]
      rw [List.countP_cons_of_pos _ _ hpa] at h
      rw [List.any_eq_false]
      intro x hx
      have h0 : l.countP p = 0 := by omega
      exact List.countP_eq_zero.mp h0 x hx
    · have hpa2 : p a = false := by simpa using hpa
      rw [List.eraseP_cons_of_neg (by simp [hpa2])]
      rw [List.countP_cons_of_neg _ _ (by simp [hpa2])] at h
      rw [List.any_cons, hpa2, Bool.false_or]
      exact ih h
/-- C9 (amended).  For the JWT variant's delete (the `deletedCount` check,
with the note id unique as Mongo guarantees): a second delete of the same
id under the same owner answers NotFound, and so does deleting an id that
never matched anything, the store being returned unchanged.  (The
`/notes/:userId/:noteId` session variant answers success unconditionally;
see the counterexample.) -/
theorem delete_idempotent_notFound (db : List Note) (uid nid : Nat)
    (h : db.countP (noteMatch uid nid) ≤ 1) :
    (deleteNote (deleteNote db uid nid).1 uid nid).2 = .notFound ∧
    (db.any (noteMatch uid nid) = false → deleteNote db uid nid = (db, .notFound)) := by
  constructor
  · by_cases hE : db.any (noteMatch uid nid) = true
    · have h1 : (deleteNote db uid nid).1 = db.eraseP (noteMatch uid nid) := by
        simp [deleteNote, hE]
      rw [h1]
      have h2 := eraseP_no_match (noteMatch uid nid) db h
      simp [deleteNote, h2]
    · have hE2 : db.any (noteMatch uid nid) = false := by simpa using hE
      have h1 : (deleteNote db uid nid).1 = db := by simp [deleteNote, hE2]
      rw [h1]
      simp [deleteNote, hE2]
  · intro hE
    simp [deleteNote, hE]

/-- Witness for C9: delete twice on the singleton store; the second call
answers NotFound. -/
theorem delete_idempotent_notFound_witness :
    (deleteNote
      (deleteNote [⟨10, 1, "T", "", "#ffffff", "General", false, false, false, 0⟩] 1 10).1
      1 10).2 = .notFound :=
  (delete_idempotent_notFound
      [⟨10, 1, "T", "", "#ffffff", "General", false, false, false, 0⟩] 1 10 (by decide)).1

/-- C10 (confirmed).  The `isArchived` query flag of `GET /notes` partitions:
absent it is the string "false", only the exact string "true" selects
archived notes, and (with no search or category filter) the listing holds
precisely the caller's notes whose archived flag equals the flag's boolean
reading — never a mix. -/
theorem listNotes_archived_partition (db : List Note) (uid : Nat)
    (isArch : Option String) (n : Note) :
    archParam none = false ∧
    archParam (some "true") = true ∧
    (n ∈ listNotes db uid none none isArch ↔
       n ∈ db ∧ n.user = uid ∧ n.isArchived = archParam isArch) := by
  refine ⟨by decide, by decide, ?_⟩
  unfold listNotes
  rw [List.mem_insertionSort, List.mem_filter]
  simp [matchesQuery, and_assoc]

end NotesApp
